import Mathlib

/-!
# Verification of the iPXE sanboot core (`src/include/ipxe/sanboot.h`)

Shallow embedding of the SAN-device data model and operations from
`src/include/ipxe/sanboot.h`.  The static-inline accessors
(`sandev_blksize`, `sandev_capacity`, `sandev_needs_reopen`,
`sandev_get`, `sandev_put`) are translated directly from the header.
The operations that the header only declares `extern`
(`sandev_reopen`, `sandev_rw`, `register_sandev`, `sandev_find`,
`san_default_drive`) have their implementations outside the available
sources; those are modelled from the specification, as marked in their
doc comments.

Machine integers are modelled as `Nat` with explicit truncation
`% 2^w` where the C expression can wrap.  We take the 64-bit build:
`size_t` and `uint64_t` are 64 bits wide, `unsigned int` is 32 bits.
-/

/-- `2^64`, the modulus of `uint64_t` and (on the 64-bit build) `size_t`. -/
def UINT64_MOD : Nat := 2 ^ 64

/-- `2^32`, the modulus of `unsigned int`. -/
def UINT_MOD : Nat := 2 ^ 32

/-- Modelled from the spec: the raw block-device capacity record
(`struct block_device_capacity` from `ipxe/blockdev.h`, which is not among
the available sources; the spec describes it as
"`capacity`: \x7btotal underlying blocks, underlying block size\x7d").
`blocks` is a `uint64_t`, `blksize` a `size_t`. -/
structure block_device_capacity where
  blocks : Nat
  blksize : Nat
deriving DecidableEq, Repr

/-- A SAN device (`struct san_device`).  The reference count, the
intrusive list membership, the two asynchronous interfaces, the retry
timer and the opaque private payload are external collaborators; the
fields that the core's code reads and writes are kept:
reference count, drive number, URI (an opaque token), the two status
words `block_rc` / `command_rc`, the capacity, the block-size shift and
the CD-ROM flag. -/
structure san_device where
  refcnt : Nat
  uri : Nat
  drive : Nat
  block_rc : Int
  command_rc : Int
  capacity : block_device_capacity
  blksize_shift : Nat
  is_cdrom : Bool
deriving DecidableEq, Repr

/-- `sandev_get`: take a reference (`ref_get ( &sandev->refcnt )`) and
return the very device that was passed in.  `ref_get` itself is an
external collaborator (`ipxe/refcnt.h`); per the spec it only increments
the count and never fails. -/
def sandev_get (sandev : san_device) : san_device :=
  { sandev with refcnt := sandev.refcnt + 1 }

/-- `sandev_put`: drop a reference (`ref_put ( &sandev->refcnt )`).
`ref_put` is an external collaborator; per the spec it only decrements
the count. -/
def sandev_put (sandev : san_device) : san_device :=
  { sandev with refcnt := sandev.refcnt - 1 }

/-- `sandev_blksize`: `return ( sandev->capacity.blksize << sandev->blksize_shift );`
The result is a `size_t`, hence the truncation. -/
def sandev_blksize (sandev : san_device) : Nat :=
  (sandev.capacity.blksize <<< sandev.blksize_shift) % UINT64_MOD

/-- `sandev_capacity`: `return ( sandev->capacity.blocks >> sandev->blksize_shift );`
A right shift of a `uint64_t` cannot wrap. -/
def sandev_capacity (sandev : san_device) : Nat :=
  sandev.capacity.blocks >>> sandev.blksize_shift

/-- `sandev_needs_reopen`: `return ( sandev->block_rc != 0 );` -/
def sandev_needs_reopen (sandev : san_device) : Bool :=
  sandev.block_rc != 0

/-- The error taxonomy of the spec (section 7). -/
inductive SanError where
  /-- duplicate or invalid drive number (`-EADDRINUSE`) -/
  | parameterError
  /-- transport open/probe failure -/
  | connectionError
  /-- retry budget exhausted in reopen/reset (`-ETIMEDOUT`) -/
  | timeoutError
  /-- I/O beyond device capacity (`-ERANGE`) -/
  | rangeError
  /-- pass-through status from the underlying transfer -/
  | transportError (rc : Int)
deriving DecidableEq, Repr

/-- The conceptual states of the reopen/reset state machine
(spec section 4.3).  Only `OPEN` and `FAILED` are observable when
`reopen` returns. -/
inductive SanState where
  | CLOSED
  | OPENING
  | OPEN
  | NEEDS_REOPEN
  | FAILED
deriving DecidableEq, Repr

/-- Modelled from the spec: the observable outcome of a `reopen` call
(`sandev_reopen` is only declared `extern` in `sanboot.h`; its
implementation is not among the available sources).  `rc` is the return
status, `dev` the device as left by the call, `state` the state-machine
state reached, and `attempts` the number of open/probe attempts
performed. -/
structure ReopenResult where
  rc : Except SanError Unit
  dev : san_device
  state : SanState
  attempts : Nat
deriving Repr

/-- Modelled from the spec: the bounded retry loop of `sandev_reopen`
(section 4.3).  `outcomes i` tells whether the `i`-th transport
open + readiness probe succeeds (the transport is an external
collaborator, so its behaviour is a parameter).  `tried` counts the
attempts already performed; `fuel` is the remaining retry budget.
A successful attempt resets `block_rc`/`command_rc` to zero and reaches
`OPEN`; exhausting the budget reaches the terminal `FAILED` state and
returns a TimeoutError. -/
def sandev_reopen_loop (dev : san_device) (outcomes : Nat → Bool) :
    Nat → Nat → ReopenResult
  | tried, 0 => ⟨.error .timeoutError, dev, .FAILED, tried⟩
  | tried, fuel + 1 =>
      if outcomes tried then
        ⟨.ok (), { dev with block_rc := 0, command_rc := 0 }, .OPEN, tried + 1⟩
      else
        sandev_reopen_loop dev outcomes (tried + 1) fuel

/-- Modelled from the spec: `sandev_reopen` (section 4.3; only its
`extern` declaration is in `sanboot.h`).  If the device does not need
reopening it returns success immediately without touching anything;
otherwise it runs the bounded retry loop with the configured maximum
attempt count `budget`. -/
def sandev_reopen (dev : san_device) (outcomes : Nat → Bool)
    (budget : Nat) : ReopenResult :=
  if sandev_needs_reopen dev then
    sandev_reopen_loop dev outcomes 0 budget
  else
    ⟨.ok (), dev, .OPEN, 0⟩

/-- Modelled from the spec: the registry `san_devices` is an
insertion-ordered list of SAN devices (the intrusive `list_head` is an
external collaborator). -/
abbrev SanRegistry := List san_device

/-- Modelled from the spec: `sandev_find` (declared `extern` in
`sanboot.h`): linear lookup of a drive number in the registry, not-found
when absent. -/
def sandev_find (sandevs : SanRegistry) (drive : Nat) : Option san_device :=
  sandevs.find? (fun sandev => sandev.drive == drive)

/-- Modelled from the spec: the first drive number of the
boot-firmware's hard-disk numbering convention ("contiguous hard-disk
numbering starting after any fixed devices"); 0x80 on PC BIOS. -/
def SAN_DEFAULT_DRIVE : Nat := 0x80

/-- Modelled from the spec: the scan inside `san_default_drive`,
probing drive numbers upward from `d` and returning the first one not
present in the registry.  `fuel` bounds the scan; `san_default_drive`
supplies enough fuel for the scan to always end on a free number. -/
def san_default_drive_scan (sandevs : SanRegistry) : Nat → Nat → Nat
  | d, 0 => d
  | d, fuel + 1 =>
      if (sandev_find sandevs d).isSome then
        san_default_drive_scan sandevs (d + 1) fuel
      else
        d

/-- Modelled from the spec: `san_default_drive` (declared `extern` in
`sanboot.h`): "returns the next unused drive number in the
boot-firmware's addressing convention ..., scanning current registry
membership to avoid collisions."  Since the registry holds
`sandevs.length` devices, probing `sandevs.length + 1` candidates always
reaches a free number. -/
def san_default_drive (sandevs : SanRegistry) : Nat :=
  san_default_drive_scan sandevs SAN_DEFAULT_DRIVE (sandevs.length + 1)

/-- Modelled from the spec: the drive number `register_sandev` ends up
using — the device's own if set, otherwise a default-assigned one
("if the device's drive number is unset, assigns `default_drive()`";
per section 6, drive number 0 requests default assignment). -/
def sandev_assigned_drive (sandevs : SanRegistry) (sandev : san_device) : Nat :=
  if sandev.drive = 0 then san_default_drive sandevs else sandev.drive

/-- Modelled from the spec: `register_sandev` (declared `extern` in
`sanboot.h`): assigns a default drive number when unset, fails with a
ParameterError if the (possibly assigned) drive number is already
registered, otherwise takes a reference and inserts at the tail
(iteration order equals registration order).  Returns the new registry
together with the device as registered. -/
def register_sandev (sandevs : SanRegistry) (sandev : san_device) :
    Except SanError (SanRegistry × san_device) :=
  let drive := sandev_assigned_drive sandevs sandev
  if (sandev_find sandevs drive).isSome then
    .error .parameterError
  else
    let sandev' := { sandev with drive := drive, refcnt := sandev.refcnt + 1 }
    .ok (sandevs ++ [sandev'], sandev')

/-- Modelled from the spec: the observable outcome of a `sandev_rw`
call.  `transferred` records whether the transport transfer function
(`block_rw`) was invoked at all. -/
structure RwResult where
  rc : Except SanError Unit
  dev : san_device
  transferred : Bool
deriving Repr

/-- Modelled from the spec: the geometry-translation step of
`sandev_rw` (section 4.4: "`underlying_lba = logical_block << shift`;
`underlying_count = count << shift`").  The `extern` declaration in
`sanboot.h` fixes the C widths: `lba` is a `uint64_t` and `count` an
`unsigned int`, so each shift truncates at its own width. -/
def sandev_rw_translate (shift lba count : Nat) : Nat × Nat :=
  ((lba <<< shift) % UINT64_MOD, (count <<< shift) % UINT_MOD)

/-- Modelled from the spec: steps 2–5 of `sandev_rw` (section 4.4),
after the channel has been repaired: translate the geometry,
bounds-check against the underlying block count (RangeError), then
invoke the transport transfer, whose status is the external parameter
`transfer_rc`; a transfer error is recorded in `block_rc` so that the
next call observes `needs_reopen`, and is reported to the caller. -/
def sandev_rw_dispatch (dev : san_device) (lba count : Nat)
    (transfer_rc : Nat → Nat → Int) : RwResult :=
  let ulba := (sandev_rw_translate dev.blksize_shift lba count).1
  let ucount := (sandev_rw_translate dev.blksize_shift lba count).2
  if dev.capacity.blocks < ulba + ucount then
    ⟨.error .rangeError, dev, false⟩
  else if transfer_rc ulba ucount = 0 then
    ⟨.ok (), dev, true⟩
  else
    ⟨.error (.transportError (transfer_rc ulba ucount)),
      { dev with block_rc := transfer_rc ulba ucount }, true⟩

/-- Modelled from the spec: `sandev_rw` (section 4.4; only its `extern`
declaration is in `sanboot.h`).  Step 1: repair the channel via
`sandev_reopen`, returning its error immediately on failure — no
transfer is attempted against a known-broken channel; then dispatch the
transfer. -/
def sandev_rw (dev : san_device) (lba count : Nat) (outcomes : Nat → Bool)
    (budget : Nat) (transfer_rc : Nat → Nat → Int) : RwResult :=
  match sandev_reopen dev outcomes budget with
  | ⟨.error e, dev', _, _⟩ => ⟨.error e, dev', false⟩
  | ⟨.ok (), dev', _, _⟩ => sandev_rw_dispatch dev' lba count transfer_rc

/-! ## Helper lemmas -/

/-- When the product fits in a `size_t`, the truncated left shift in
`sandev_blksize` is the exact product. -/
lemma sandev_blksize_of_fit (s : san_device)
    (h : s.capacity.blksize * 2 ^ s.blksize_shift < UINT64_MOD) :
    sandev_blksize s = s.capacity.blksize * 2 ^ s.blksize_shift := by
  unfold sandev_blksize
  rw [Nat.shiftLeft_eq, Nat.mod_eq_of_lt h]

/-- A healthy device does not need reopening. -/
lemma sandev_needs_reopen_false (s : san_device) (h : s.block_rc = 0) :
    sandev_needs_reopen s = false := by
  simp [sandev_needs_reopen, h]

/-- `sandev_reopen` on a healthy device returns at once. -/
lemma sandev_reopen_of_healthy (dev : san_device) (outcomes : Nat → Bool)
    (budget : Nat) (h : dev.block_rc = 0) :
    sandev_reopen dev outcomes budget = ⟨.ok (), dev, .OPEN, 0⟩ := by
  rw [sandev_reopen, sandev_needs_reopen_false dev h]
  simp

/-! ## The claims -/

/-- C1: `sandev_needs_reopen` is true iff the block channel's last
recorded status `block_rc` is non-zero, and it is a pure predicate of
that status field alone: any two devices agreeing on `block_rc` agree on
`sandev_needs_reopen`. -/
theorem sandev_needs_reopen_iff_block_rc :
    (∀ s : san_device, sandev_needs_reopen s = true ↔ s.block_rc ≠ 0) ∧
    (∀ s t : san_device, s.block_rc = t.block_rc →
      sandev_needs_reopen s = sandev_needs_reopen t) := by
  constructor
  · intro s
    simp [sandev_needs_reopen]
  · intro s t h
    simp [sandev_needs_reopen, h]

/-- Witness for C1 at two concrete devices with equal `block_rc`. -/
theorem sandev_needs_reopen_iff_block_rc_witness :
    sandev_needs_reopen ⟨1, 0, 0x80, 0, 0, ⟨100, 512⟩, 2, false⟩ =
      sandev_needs_reopen ⟨2, 1, 0x81, 0, 0, ⟨200, 2048⟩, 0, true⟩ :=
  sandev_needs_reopen_iff_block_rc.2 _ _ rfl

/-- C2 counterexample: `sandev_blksize` computes the product in a
`size_t`, so on the device with underlying block size `2^63` and
shift 1 the C left shift wraps to 0 instead of `2^64`. -/
theorem sandev_blksize_overflow_cex :
    sandev_blksize ⟨1, 0, 0x80, 0, 0, ⟨1, 2 ^ 63⟩, 1, false⟩ ≠ 2 ^ 63 * 2 ^ 1 := by
  decide

/-- C2 (amended): whenever the product fits in the machine word
(`size_t`), the exposed block size accessor returns the underlying
block size times `2^shift`; in general the product is truncated to the
machine word. -/
theorem sandev_blksize_eq_mul_pow (s : san_device)
    (h : s.capacity.blksize * 2 ^ s.blksize_shift < UINT64_MOD) :
    sandev_blksize s = s.capacity.blksize * 2 ^ s.blksize_shift :=
  sandev_blksize_of_fit s h

/-- Witness for C2 (amended) on a 512-byte-block device with shift 2. -/
theorem sandev_blksize_eq_mul_pow_witness :
    512 * 2 ^ 2 < UINT64_MOD ∧
    sandev_blksize ⟨1, 0, 0x80, 0, 0, ⟨100, 512⟩, 2, false⟩ = 512 * 2 ^ 2 :=
  ⟨by decide, sandev_blksize_eq_mul_pow _ (by decide)⟩

/-- C3: the exposed block count accessor returns the underlying block
count divided by `2^shift`, with integer (floor) division — the C right
shift of a `uint64_t` is exactly floor division by the power of two. -/
theorem sandev_capacity_eq_div_pow (s : san_device) :
    sandev_capacity s = s.capacity.blocks / 2 ^ s.blksize_shift := by
  simp [sandev_capacity, Nat.shiftRight_eq_div_pow]

/-- C4 counterexample: the translation operates at the declared C
widths (`uint64_t` lba, `unsigned int` count), so at
`lba = 2^63, shift = 1` the translated lba wraps to 0 instead of the
exact product `2^64`. -/
theorem sandev_rw_translate_overflow_cex :
    sandev_rw_translate 1 (2 ^ 63) 1 ≠ (2 ^ 63 * 2 ^ 1, 1 * 2 ^ 1) := by
  decide

/-- C4 (amended): whenever `logical_block × 2^shift` fits in a
`uint64_t` and `count × 2^shift` fits in an `unsigned int`, the
dispatcher's geometry translation is the exact multiplication
`underlying_lba = logical_block × 2^shift`,
`underlying_count = count × 2^shift`; in general each product is only
equal modulo its machine word width. -/
theorem sandev_rw_translate_exact (shift lba count : Nat)
    (h1 : lba * 2 ^ shift < UINT64_MOD) (h2 : count * 2 ^ shift < UINT_MOD) :
    sandev_rw_translate shift lba count = (lba * 2 ^ shift, count * 2 ^ shift) := by
  unfold sandev_rw_translate
  rw [Nat.shiftLeft_eq, Nat.shiftLeft_eq, Nat.mod_eq_of_lt h1, Nat.mod_eq_of_lt h2]

/-- Witness for C4 (amended) at shift 2, lba 24, count 1. -/
theorem sandev_rw_translate_exact_witness :
    24 * 2 ^ 2 < UINT64_MOD ∧ 1 * 2 ^ 2 < UINT_MOD ∧
    sandev_rw_translate 2 24 1 = (24 * 2 ^ 2, 1 * 2 ^ 2) :=
  ⟨by decide, by decide, sandev_rw_translate_exact 2 24 1 (by decide) (by decide)⟩

/-- C7: `sandev_reopen` on a device whose block channel status is zero
returns success immediately, leaves the device (channels, status words,
geometry, reference count) entirely unchanged, and performs zero
open/probe attempts. -/
theorem sandev_reopen_noop (dev : san_device) (outcomes : Nat → Bool)
    (budget : Nat) (h : dev.block_rc = 0) :
    sandev_reopen dev outcomes budget = ⟨.ok (), dev, .OPEN, 0⟩ :=
  sandev_reopen_of_healthy dev outcomes budget h

/-- Witness for C7 on a concrete healthy device. -/
theorem sandev_reopen_noop_witness :
    sandev_reopen ⟨1, 0, 0x80, 0, 0, ⟨100, 512⟩, 2, false⟩ (fun _ => false) 10 =
      ⟨.ok (), ⟨1, 0, 0x80, 0, 0, ⟨100, 512⟩, 2, false⟩, .OPEN, 0⟩ :=
  sandev_reopen_noop _ _ _ rfl

/-- The retry loop under uniformly failing attempts exhausts its fuel,
ends in `FAILED` with a TimeoutError, and has performed exactly
`tried + fuel` attempts. -/
lemma sandev_reopen_loop_all_fail (dev : san_device) (outcomes : Nat → Bool) :
    ∀ (fuel tried : Nat),
      (∀ i, tried ≤ i → i < tried + fuel → outcomes i = false) →
      sandev_reopen_loop dev outcomes tried fuel =
        ⟨.error .timeoutError, dev, .FAILED, tried + fuel⟩ := by
  intro fuel
  induction fuel with
  | zero => intro tried _; simp [sandev_reopen_loop]
  | succ fuel ih =>
      intro tried h
      have h0 : outcomes tried = false := h tried (Nat.le_refl _) (by omega)
      have harith : tried + 1 + fuel = tried + (fuel + 1) := by omega
      rw [sandev_reopen_loop, h0]
      simp only [Bool.false_eq_true, if_false]
      rw [ih (tried + 1) (fun i h1 h2 => h i (by omega) (by omega)), harith]

/-- The retry loop never performs more attempts than its fuel allows. -/
lemma sandev_reopen_loop_attempts_le (dev : san_device) (outcomes : Nat → Bool) :
    ∀ (fuel tried : Nat),
      (sandev_reopen_loop dev outcomes tried fuel).attempts ≤ tried + fuel := by
  intro fuel
  induction fuel with
  | zero => intro tried; simp [sandev_reopen_loop]
  | succ fuel ih =>
      intro tried
      rw [sandev_reopen_loop]
      by_cases h : outcomes tried
      · simp [h]
      · simp only [h, Bool.false_eq_true, if_false]
        calc (sandev_reopen_loop dev outcomes (tried + 1) fuel).attempts
            ≤ tried + 1 + fuel := ih (tried + 1)
          _ ≤ tried + (fuel + 1) := by omega

/-- C8: on a broken device whose `budget` consecutive open/probe
attempts all fail, `sandev_reopen` returns a TimeoutError and ends in
the terminal `FAILED` state having performed exactly `budget` attempts;
and on every input whatsoever the state machine performs at most
`budget` attempts — it never retries beyond the configured budget. -/
theorem sandev_reopen_exhaustion :
    (∀ (dev : san_device) (outcomes : Nat → Bool) (budget : Nat),
        dev.block_rc ≠ 0 → (∀ i, i < budget → outcomes i = false) →
        sandev_reopen dev outcomes budget =
          ⟨.error .timeoutError, dev, .FAILED, budget⟩) ∧
    (∀ (dev : san_device) (outcomes : Nat → Bool) (budget : Nat),
        (sandev_reopen dev outcomes budget).attempts ≤ budget) := by
  constructor
  · intro dev outcomes budget h hfail
    have hneeds : sandev_needs_reopen dev = true := by
      simp [sandev_needs_reopen, h]
    rw [sandev_reopen, hneeds]
    simp only [if_true]
    have := sandev_reopen_loop_all_fail dev outcomes budget 0
      (fun i _ h2 => hfail i (by omega))
    simpa using this
  · intro dev outcomes budget
    rw [sandev_reopen]
    by_cases h : sandev_needs_reopen dev
    · rw [h]
      simp only [if_true]
      simpa using sandev_reopen_loop_attempts_le dev outcomes budget 0
    · simp [h]

/-- Witness for C8 on a concrete broken device with a budget of 3
all-failing attempts. -/
theorem sandev_reopen_exhaustion_witness :
    sandev_reopen ⟨1, 0, 0x80, -1, 0, ⟨100, 512⟩, 2, false⟩ (fun _ => false) 3 =
      ⟨.error .timeoutError, ⟨1, 0, 0x80, -1, 0, ⟨100, 512⟩, 2, false⟩, .FAILED, 3⟩ :=
  sandev_reopen_exhaustion.1 _ _ 3 (by decide) (fun _ _ => rfl)

/-- C9: `sandev_get` never fails and returns exactly the device it was
given (the same device, its reference count incremented and every other
field untouched), and `sandev_put` likewise changes nothing but the
reference count. -/
theorem sandev_get_put_frame (s : san_device) :
    (sandev_get s).refcnt = s.refcnt + 1 ∧
    (sandev_get s).uri = s.uri ∧
    (sandev_get s).drive = s.drive ∧
    (sandev_get s).block_rc = s.block_rc ∧
    (sandev_get s).command_rc = s.command_rc ∧
    (sandev_get s).capacity = s.capacity ∧
    (sandev_get s).blksize_shift = s.blksize_shift ∧
    (sandev_get s).is_cdrom = s.is_cdrom ∧
    (sandev_put s).refcnt = s.refcnt - 1 ∧
    (sandev_put s).uri = s.uri ∧
    (sandev_put s).drive = s.drive ∧
    (sandev_put s).block_rc = s.block_rc ∧
    (sandev_put s).command_rc = s.command_rc ∧
    (sandev_put s).capacity = s.capacity ∧
    (sandev_put s).blksize_shift = s.blksize_shift ∧
    (sandev_put s).is_cdrom = s.is_cdrom := by
  simp [sandev_get, sandev_put]

/-- C5 counterexample: the claim as stated omits the reopen step.  On a
device with 100 underlying blocks, shift 2 and a broken channel whose
reopen attempts all fail, the out-of-range request for exposed blocks
[25, 26) (translated range end 104 > 100) fails with the reopen's
TimeoutError, not with a RangeError. -/
theorem sandev_rw_range_cex :
    100 < (sandev_rw_translate 2 25 1).1 + (sandev_rw_translate 2 25 1).2 ∧
    (sandev_rw ⟨1, 0, 0x80, -1, 0, ⟨100, 512⟩, 2, false⟩ 25 1 (fun _ => false)
        10 (fun _ _ => 0)).rc = .error .timeoutError ∧
    (Except.error SanError.timeoutError : Except SanError Unit) ≠
      .error .rangeError := by
  refine ⟨by decide, rfl, ?_⟩
  simp

/-- C5 (amended): on a device whose block channel is healthy (so the
reopen step succeeds as a no-op), a request whose translated range end
exceeds the underlying block count fails with a RangeError, the device
is left unchanged and no transfer is attempted; and on the concrete
device with 100 underlying blocks and shift 2, the request for exposed
blocks [24, 25) passes the bounds check and transfers, while [25, 26)
fails with a RangeError and does not transfer. -/
theorem sandev_rw_range_check :
    (∀ (dev : san_device) (lba count : Nat) (outcomes : Nat → Bool)
        (budget : Nat) (transfer_rc : Nat → Nat → Int),
        dev.block_rc = 0 →
        dev.capacity.blocks <
          (sandev_rw_translate dev.blksize_shift lba count).1 +
          (sandev_rw_translate dev.blksize_shift lba count).2 →
        sandev_rw dev lba count outcomes budget transfer_rc =
          ⟨.error .rangeError, dev, false⟩) ∧
    (sandev_rw ⟨1, 0, 0x80, 0, 0, ⟨100, 512⟩, 2, false⟩ 24 1 (fun _ => true) 0
        (fun _ _ => 0) =
      ⟨.ok (), ⟨1, 0, 0x80, 0, 0, ⟨100, 512⟩, 2, false⟩, true⟩) ∧
    (sandev_rw ⟨1, 0, 0x80, 0, 0, ⟨100, 512⟩, 2, false⟩ 25 1 (fun _ => true) 0
        (fun _ _ => 0) =
      ⟨.error .rangeError, ⟨1, 0, 0x80, 0, 0, ⟨100, 512⟩, 2, false⟩, false⟩) := by
  refine ⟨?_, rfl, rfl⟩
  intro dev lba count outcomes budget transfer_rc h hrange
  rw [sandev_rw, sandev_reopen_of_healthy dev outcomes budget h]
  simp [sandev_rw_dispatch, hrange]

/-- Witness for C5's universally quantified part on the concrete
healthy 100-block device with shift 2 at exposed block 25. -/
theorem sandev_rw_range_check_witness :
    sandev_rw ⟨2, 0, 0x81, 0, 0, ⟨100, 512⟩, 2, false⟩ 25 1 (fun _ => false) 7
        (fun _ _ => -5) =
      ⟨.error .rangeError, ⟨2, 0, 0x81, 0, 0, ⟨100, 512⟩, 2, false⟩, false⟩ :=
  sandev_rw_range_check.1 _ 25 1 _ 7 _ rfl (by decide)

/-- Counting split: the elements `≥ d` are the elements `≥ d + 1`
together with the elements equal to `d`. -/
lemma countP_ge_split (l : List Nat) (d : Nat) :
    l.countP (fun x => d ≤ x) =
      l.countP (fun x => d + 1 ≤ x) + l.countP (fun x => x = d) := by
  induction l with
  | nil => simp
  | cons a l ih =>
      simp only [List.countP_cons, ih]
      by_cases h1 : d ≤ a
      · by_cases h2 : d + 1 ≤ a
        · have h3 : ¬(a = d) := by omega
          simp [h1, h2, h3]
          omega
        · have h3 : a = d := by omega
          simp [h1, h2, h3]
          omega
      · have h2 : ¬(d + 1 ≤ a) := by omega
        have h3 : ¬(a = d) := by omega
        simp [h1, h2, h3]

/-- A successful lookup means the drive number occurs in the registry's
drive column. -/
lemma mem_drives_of_find_isSome (sandevs : SanRegistry) (d : Nat)
    (h : (sandev_find sandevs d).isSome) :
    d ∈ sandevs.map (fun s => s.drive) := by
  rw [sandev_find, List.find?_isSome] at h
  obtain ⟨s, hs, hd⟩ := h
  simp only [beq_iff_eq] at hd
  exact hd ▸ List.mem_map_of_mem _ hs

/-- Pigeonhole step: if the registry holds fewer drive numbers `≥ d`
than the scan has fuel, the scan ends on an unoccupied drive number. -/
lemma san_default_drive_scan_free (sandevs : SanRegistry) :
    ∀ (fuel d : Nat),
      (sandevs.map (fun s => s.drive)).countP (fun x => d ≤ x) < fuel →
      sandev_find sandevs (san_default_drive_scan sandevs d fuel) = none := by
  intro fuel
  induction fuel with
  | zero => intro d h; omega
  | succ fuel ih =>
      intro d h
      rw [san_default_drive_scan]
      by_cases hfind : (sandev_find sandevs d).isSome
      · have hd : d ∈ sandevs.map (fun s => s.drive) :=
          mem_drives_of_find_isSome _ _ hfind
        have h1 : 0 < (sandevs.map (fun s => s.drive)).countP (fun x => x = d) := by
          rw [List.countP_pos_iff]
          exact ⟨d, hd, by simp⟩
        have h2 := countP_ge_split (sandevs.map (fun s => s.drive)) d
        have h3 : (sandevs.map (fun s => s.drive)).countP
            (fun x => d + 1 ≤ x) < fuel := by omega
        rw [if_pos hfind]
        exact ih (d + 1) h3
      · rw [if_neg hfind]
        exact Option.not_isSome_iff_eq_none.mp hfind

/-- `san_default_drive` always returns a drive number not currently in
the registry: the scan probes `length + 1` candidates while at most
`length` of them can be occupied. -/
lemma san_default_drive_free (sandevs : SanRegistry) :
    sandev_find sandevs (san_default_drive sandevs) = none := by
  have h : (sandevs.map (fun s => s.drive)).countP
      (fun x => SAN_DEFAULT_DRIVE ≤ x) < sandevs.length + 1 := by
    calc (sandevs.map (fun s => s.drive)).countP (fun x => SAN_DEFAULT_DRIVE ≤ x)
        ≤ (sandevs.map (fun s => s.drive)).length := List.countP_le_length _
      _ = sandevs.length := by simp
      _ < sandevs.length + 1 := by omega
  exact san_default_drive_scan_free sandevs (sandevs.length + 1)
    SAN_DEFAULT_DRIVE h

/-- Lookup skips a prefix in which the predicate finds nothing. -/
lemma find?_append_of_none {α : Type} (l₁ l₂ : List α) (p : α → Bool)
    (h : l₁.find? p = none) : (l₁ ++ l₂).find? p = l₂.find? p := by
  induction l₁ with
  | nil => simp
  | cons a l ih =>
      rw [List.find?_cons] at h
      cases hpa : p a with
      | true => rw [hpa] at h; simp at h
      | false =>
          rw [hpa] at h
          rw [List.cons_append, List.find?_cons, hpa]
          exact ih h

/-- C6: `register_sandev` fails with a ParameterError whenever the
(possibly default-assigned) drive number is already present in the
registry; on success the registered device is findable via
`sandev_find` at its drive number; and `san_default_drive` never
returns a drive number already registered. -/
theorem register_sandev_spec :
    (∀ (sandevs : SanRegistry) (sandev : san_device),
        (sandev_find sandevs (sandev_assigned_drive sandevs sandev)).isSome →
        register_sandev sandevs sandev = .error .parameterError) ∧
    (∀ (sandevs : SanRegistry) (sandev : san_device)
        (sandevs' : SanRegistry) (sandev' : san_device),
        register_sandev sandevs sandev = .ok (sandevs', sandev') →
        sandev_find sandevs' sandev'.drive = some sandev') ∧
    (∀ sandevs : SanRegistry,
        sandev_find sandevs (san_default_drive sandevs) = none) := by
  refine ⟨?_, ?_, san_default_drive_free⟩
  · intro sandevs sandev h
    rw [register_sandev]
    simp only [h, if_true]
  · intro sandevs sandev sandevs' sandev' h
    rw [register_sandev] at h
    by_cases hfind :
        (sandev_find sandevs (sandev_assigned_drive sandevs sandev)).isSome
    · simp only [hfind, if_true] at h
      exact absurd h (by simp)
    · simp only [hfind, Bool.false_eq_true, if_false, Except.ok.injEq,
        Prod.mk.injEq] at h
      obtain ⟨hregs, hdev⟩ := h
      subst hregs
      subst hdev
      rw [sandev_find, find?_append_of_none]
      · simp [List.find?_cons]
      · have : sandev_find sandevs (sandev_assigned_drive sandevs sandev) =
            none := Option.not_isSome_iff_eq_none.mp hfind
        simpa [sandev_find] using this

/-- Witness for C6: registering a second device at the already-occupied
drive number 0x80 fails with a ParameterError. -/
theorem register_sandev_spec_witness :
    register_sandev [⟨1, 0, 0x80, 0, 0, ⟨100, 512⟩, 2, false⟩]
        ⟨1, 5, 0x80, 0, 0, ⟨200, 512⟩, 0, false⟩ = .error .parameterError :=
  register_sandev_spec.1 _ _ (by decide)

/-- C10: on a device whose underlying block count is an exact multiple
of `2^shift` and whose block-size product fits in the machine word, the
geometry translation of the accessor pair is lossless: the exposed
block count times `2^shift` recovers the underlying block count, and
exposed block size times exposed block count equals underlying block
size times underlying block count (total byte capacity is preserved). -/
theorem sandev_geometry_lossless (s : san_device)
    (h1 : 2 ^ s.blksize_shift ∣ s.capacity.blocks)
    (h2 : s.capacity.blksize * 2 ^ s.blksize_shift < UINT64_MOD) :
    sandev_capacity s * 2 ^ s.blksize_shift = s.capacity.blocks ∧
    sandev_blksize s * sandev_capacity s =
      s.capacity.blksize * s.capacity.blocks := by
  have hc : sandev_capacity s = s.capacity.blocks / 2 ^ s.blksize_shift := by
    simp [sandev_capacity, Nat.shiftRight_eq_div_pow]
  constructor
  · rw [hc]
    exact Nat.div_mul_cancel h1
  · rw [hc, sandev_blksize_of_fit s h2]
    obtain ⟨m, hm⟩ := h1
    rw [hm, Nat.mul_div_cancel_left m (pow_pos (by norm_num) _)]
    ring

/-- Witness for C10 on the 100-block, 512-byte, shift-2 device. -/
theorem sandev_geometry_lossless_witness :
    (2 ^ 2 ∣ 100) ∧ 512 * 2 ^ 2 < UINT64_MOD ∧
    (sandev_capacity ⟨1, 0, 0x80, 0, 0, ⟨100, 512⟩, 2, false⟩ * 2 ^ 2 = 100 ∧
      sandev_blksize ⟨1, 0, 0x80, 0, 0, ⟨100, 512⟩, 2, false⟩ *
        sandev_capacity ⟨1, 0, 0x80, 0, 0, ⟨100, 512⟩, 2, false⟩ = 512 * 100) :=
  ⟨by decide, by decide, sandev_geometry_lossless _ (by decide) (by decide)⟩
